import Mathlib

/-!
Shallow embedding of the scribe core: the `AppResult` envelope, command
objects with validation, the `Transcription` and `Summary` domain entities,
the provider interfaces, and the two orchestration services
(`TranscriptionService`, `AudioProcessingService`). Each definition mirrors
the corresponding Python source in `src/core`.
-/

namespace Scribe

/-- Result envelope (`src/core/models/app_result.py`, class `AppResult`).
`value` is `Optional[T]` in the source, hence `Option T` here. -/
structure AppResult (T : Type) where
  success : Bool
  value : Option T
  message : String
  errors : List String
deriving DecidableEq

/-- The dataclass constructor together with `__post_init__`: the Python
defaults are `value=None`, `message=""`, `errors=None`, and `__post_init__`
replaces `errors=None` by `[]`. -/
def AppResult.make {T : Type} (success : Bool) (value : Option T)
    (message : String) (errors : Option (List String)) : AppResult T :=
  ⟨success, value, message, errors.getD []⟩

/-- `AppResult.ok(value, message="")`. -/
def AppResult.ok {T : Type} (value : T) (message : String) : AppResult T :=
  ⟨true, some value, message, []⟩

/-- `AppResult.fail(message, errors=None)`; the body computes `errors or []`,
which agrees with `Option.getD` (a `None` and an empty list both become `[]`). -/
def AppResult.fail {T : Type} (message : String) (errors : Option (List String)) :
    AppResult T :=
  ⟨false, none, message, errors.getD []⟩

/-- `AppResult.validation_error(errors)`. -/
def AppResult.validation_error {T : Type} (errors : List String) : AppResult T :=
  ⟨false, none, "Validation failed", errors⟩

/-- Transcription entity (`src/core/models/transcription.py`).
`duration_seconds` is an `Optional[float]`, modelled over `Rat`. -/
structure Transcription where
  text : String
  audio_file_path : String
  model_used : String
  language : Option String
  duration_seconds : Option Rat
deriving DecidableEq

/-- Construction of a `Transcription`, i.e. the dataclass constructor with
`__post_init__`: it raises `ValueError` when `text` or `audio_file_path` is
falsy (for `str`, exactly the empty string). No other field is checked. -/
def Transcription.make (text audio_file_path model_used : String)
    (language : Option String) (duration_seconds : Option Rat) :
    Except String Transcription :=
  if text = "" then Except.error "Transcription text cannot be empty"
  else if audio_file_path = "" then Except.error "Audio file path cannot be empty"
  else Except.ok ⟨text, audio_file_path, model_used, language, duration_seconds⟩

/-- Summary entity (`src/core/models/summary.py`). -/
structure Summary where
  conversation_summary : String
  action_items : List String
deriving DecidableEq

/-- Construction of a `Summary`: `__post_init__` raises when
`conversation_summary` is empty and replaces `action_items=None` by `[]`. -/
def Summary.make (conversation_summary : String)
    (action_items : Option (List String)) : Except String Summary :=
  if conversation_summary = "" then
    Except.error "Conversation summary cannot be empty"
  else Except.ok ⟨conversation_summary, action_items.getD []⟩

/-- The five model sizes accepted by command validation. -/
def validModels : List String := ["tiny", "base", "small", "medium", "large"]

/-- The f-string `f"Invalid model: {self.model}. Must be one of: ..."`;
in the failing branch `self.model` is always a string, rendered verbatim. -/
def invalidModelMsg (m : String) : String :=
  "Invalid model: " ++ m ++ ". Must be one of: tiny, base, small, medium, large"

/-- `src/core/models/commands.py`, class `TranscribeAudioCommand`. The Python
default for `model` is `"base"`; callers may pass `None`. -/
structure TranscribeAudioCommand where
  audio_file_path : String
  model : Option String
deriving DecidableEq

/-- `TranscribeAudioCommand.validate`: the path check is Python truthiness
(`not self.audio_file_path`), true exactly for the empty string — no
whitespace trimming; the model check `self.model not in [..., None]` accepts
`None` and the five sizes. -/
def TranscribeAudioCommand.validate (c : TranscribeAudioCommand) : List String :=
  (if c.audio_file_path = "" then ["Audio file path is required"] else []) ++
  (match c.model with
   | none => []
   | some m => if m ∈ validModels then [] else [invalidModelMsg m])

/-- Python `str.strip()`: drop leading and trailing whitespace characters
(modelled on Lean's `Char.isWhitespace` set). -/
def pyStrip (s : String) : String :=
  ⟨((s.data.dropWhile Char.isWhitespace).reverse.dropWhile Char.isWhitespace).reverse⟩

/-- `src/core/models/commands.py`, class `GenerateSummaryCommand`. -/
structure GenerateSummaryCommand where
  text : String
deriving DecidableEq

/-- `GenerateSummaryCommand.validate`: `not self.text or not self.text.strip()`. -/
def GenerateSummaryCommand.validate (c : GenerateSummaryCommand) : List String :=
  if c.text = "" ∨ pyStrip c.text = "" then ["Text is required for summarization"]
  else []

/-- `src/core/models/commands.py`, class `ProcessAudioFileCommand`. -/
structure ProcessAudioFileCommand where
  audio_file_path : String
  model : Option String
  skip_summary : Bool
deriving DecidableEq

/-- `ProcessAudioFileCommand.validate`: identical checks to
`TranscribeAudioCommand.validate`. -/
def ProcessAudioFileCommand.validate (c : ProcessAudioFileCommand) : List String :=
  (if c.audio_file_path = "" then ["Audio file path is required"] else []) ++
  (match c.model with
   | none => []
   | some m => if m ∈ validModels then [] else [invalidModelMsg m])

/-- Transcription capability contract
(`src/core/interfaces/transcription_provider.py`): `transcribe(path, model)`. -/
structure ITranscriptionProvider where
  transcribe : String → Option String → AppResult Transcription

/-- Summarization capability contract
(`src/core/interfaces/summarization_provider.py`): `summarize(text)`. -/
structure ISummarizationProvider where
  summarize : String → AppResult Summary

/-- `TranscriptionService.transcribe_audio`; the provider stored in the
service instance at construction is passed explicitly. -/
def TranscriptionService.transcribe_audio (provider : ITranscriptionProvider)
    (command : TranscribeAudioCommand) : AppResult Transcription :=
  let validation_errors := command.validate
  if validation_errors ≠ [] then AppResult.validation_error validation_errors
  else provider.transcribe command.audio_file_path command.model

/-- `AudioProcessingService.generate_summary`; the summarization provider
stored in the service instance is passed explicitly. -/
def AudioProcessingService.generate_summary (provider : ISummarizationProvider)
    (command : GenerateSummaryCommand) : AppResult Summary :=
  let validation_errors := command.validate
  if validation_errors ≠ [] then AppResult.validation_error validation_errors
  else provider.summarize command.text

/-- `AudioProcessingService.process_audio_file`. The two `none` branches are
unreachable for provider results built with `AppResult.ok`; Python would take
them only for a duck-typed envelope with `success=True, value=None`, where it
raises `AttributeError` (first branch) or puts `None` in the result tuple
(second branch), neither representable in the annotated return type. -/
def AudioProcessingService.process_audio_file (tp : ITranscriptionProvider)
    (sp : ISummarizationProvider) (command : ProcessAudioFileCommand) :
    AppResult (Transcription × Summary) :=
  let validation_errors := command.validate
  if validation_errors ≠ [] then AppResult.validation_error validation_errors
  else
    let transcription_result := tp.transcribe command.audio_file_path command.model
    if transcription_result.success = false then
      AppResult.fail ("Transcription failed: " ++ transcription_result.message)
        (some transcription_result.errors)
    else
      match transcription_result.value with
      | none => AppResult.fail "Transcription result has no value" (some [])
      | some transcription =>
        if command.skip_summary then
          AppResult.ok (transcription, ⟨"Summary skipped by user", []⟩)
            "Transcription completed (summary skipped)"
        else
          let summary_result :=
            AudioProcessingService.generate_summary sp ⟨transcription.text⟩
          if summary_result.success = false then
            AppResult.fail ("Summarization failed: " ++ summary_result.message)
              (some summary_result.errors)
          else
            match summary_result.value with
            | none => AppResult.fail "Summary result has no value" (some [])
            | some summary =>
              AppResult.ok (transcription, summary)
                "Audio processing completed successfully"

/-- The envelope invariant stated in the spec: a successful envelope carries a
value and no errors; a failed envelope carries no value. -/
def envelopeInvariant {T : Type} (r : AppResult T) : Prop :=
  (r.success = true → r.value.isSome = true ∧ r.errors = []) ∧
  (r.success = false → r.value = none)

/-! Concrete fixtures: deterministic provider stand-ins and commands, used to
instantiate the theorems at concrete inputs. -/

/-- A transcription with ordinary non-empty text. -/
def sampleTranscription : Transcription :=
  ⟨"hello world", "audio.mp3", "base", none, none⟩

/-- A transcription whose text is non-empty but all whitespace; the
`Transcription` constructor accepts it since `" "` is truthy. -/
def wsTranscription : Transcription := ⟨" ", "audio.mp3", "base", none, none⟩

/-- A sample summary entity. -/
def sampleSummary : Summary := ⟨"A short summary", ["Do the thing"]⟩

/-- Provider stand-in that always succeeds with `sampleTranscription`. -/
def okTranscriber : ITranscriptionProvider :=
  ⟨fun _ _ => AppResult.ok sampleTranscription "Transcription completed successfully"⟩

/-- Provider stand-in that always succeeds with `wsTranscription`. -/
def wsTranscriber : ITranscriptionProvider :=
  ⟨fun _ _ => AppResult.ok wsTranscription ""⟩

/-- Provider stand-in that always fails, like a missing audio file. -/
def failTranscriber : ITranscriptionProvider :=
  ⟨fun _ _ => AppResult.fail "File not found" (some ["Audio file does not exist"])⟩

/-- Summarizer stand-in that always succeeds with `sampleSummary`. -/
def okSummarizer : ISummarizationProvider :=
  ⟨fun _ => AppResult.ok sampleSummary "Summary generated successfully"⟩

/-- Summarizer stand-in that always fails, like a rejected API key. -/
def failSummarizer : ISummarizationProvider :=
  ⟨fun _ => AppResult.fail "API error" (some ["Invalid API key"])⟩

/-- A command that passes validation, with summarization requested. -/
def sampleCommand : ProcessAudioFileCommand := ⟨"audio.mp3", some "base", false⟩

/-- A command that passes validation, with summarization skipped. -/
def skipCommand : ProcessAudioFileCommand := ⟨"audio.mp3", some "base", true⟩

/-- A command with an empty audio file path. -/
def emptyPathCommand : ProcessAudioFileCommand := ⟨"", some "base", false⟩

/-! Theorems. -/

/-- The model-violation message can never coincide with the path-violation
message: their lengths differ for every model name. -/
lemma invalidModelMsg_ne_path (m : String) :
    invalidModelMsg m ≠ "Audio file path is required" := by
  intro h
  have hlen := congrArg String.length h
  unfold invalidModelMsg at hlen
  simp only [String.length_append] at hlen
  have e1 : ("Invalid model: " : String).length = 15 := rfl
  have e2 : (". Must be one of: tiny, base, small, medium, large" : String).length = 50 := rfl
  have e3 : ("Audio file path is required" : String).length = 27 := rfl
  rw [e1, e2, e3] at hlen
  omega

/-- Claim C2 (counterexample): the raw dataclass constructor can build an
envelope with `success=True` and `value=None`, violating the invariant. -/
theorem appResult_make_violates_invariant :
    ¬ envelopeInvariant (AppResult.make true (none : Option Nat) "" none) := by
  unfold envelopeInvariant AppResult.make
  decide

/-- Claim C2 (amended): every envelope constructed via `ok`, `fail`, or
`validation_error` satisfies the invariant: `success = true` implies the value
is present and the errors are empty, and `success = false` implies the value
is absent. -/
theorem smart_constructors_satisfy_invariant {T : Type} (v : T) (m : String)
    (errs : List String) (oerrs : Option (List String)) :
    envelopeInvariant (AppResult.ok v m) ∧
    envelopeInvariant (AppResult.fail m oerrs : AppResult T) ∧
    envelopeInvariant (AppResult.validation_error errs : AppResult T) := by
  unfold envelopeInvariant AppResult.ok AppResult.fail AppResult.validation_error
  simp

/-- Claim C8 (counterexample): constructing a `Transcription` with a negative
`duration_seconds` succeeds — `__post_init__` never checks the duration. -/
theorem transcription_make_ignores_negative_duration :
    Transcription.make "hello" "audio.mp3" "base" none (some (-1)) =
      Except.ok ⟨"hello", "audio.mp3", "base", none, some (-1)⟩ := by
  rfl

/-- Claim C8 (amended): construction of a `Transcription` succeeds exactly
when `text` and `audio_file_path` are non-empty; `duration_seconds` is not
checked at all. -/
theorem transcription_make_ok_iff (t p m : String) (l : Option String)
    (d : Option Rat) :
    (∃ tr, Transcription.make t p m l d = Except.ok tr) ↔ (t ≠ "" ∧ p ≠ "") := by
  unfold Transcription.make
  by_cases ht : t = "" <;> by_cases hp : p = "" <;> simp [ht, hp]

/-- Claim C6 (counterexample): an all-whitespace audio file path passes
validation — the path check is plain truthiness, with no trimming. -/
theorem whitespace_path_passes_validation :
    ¬ ("Audio file path is required" ∈
        (ProcessAudioFileCommand.mk " " (some "base") false).validate) := by
  decide

/-- Claim C6 (amended): for both path-bearing commands, the violation
`"Audio file path is required"` appears in `validate()` iff the path is the
empty string; an all-whitespace path is not trimmed and yields no violation. -/
theorem audio_path_violation_iff_empty (c1 : TranscribeAudioCommand)
    (c2 : ProcessAudioFileCommand) :
    ("Audio file path is required" ∈ c1.validate ↔ c1.audio_file_path = "") ∧
    ("Audio file path is required" ∈ c2.validate ↔ c2.audio_file_path = "") := by
  constructor
  · unfold TranscribeAudioCommand.validate
    by_cases hp : c1.audio_file_path = "" <;>
      cases hm : c1.model with
      | none => simp [hp]
      | some m =>
        by_cases hv : m ∈ validModels <;>
          simp [hp, hv, (invalidModelMsg_ne_path m).symm]
  · unfold ProcessAudioFileCommand.validate
    by_cases hp : c2.audio_file_path = "" <;>
      cases hm : c2.model with
      | none => simp [hp]
      | some m =>
        by_cases hv : m ∈ validModels <;>
          simp [hp, hv, (invalidModelMsg_ne_path m).symm]

/-- Claim C7: an absent model field yields no model-related violation, and a
present model outside the five sizes yields exactly the violation
`invalidModelMsg`, for both path-bearing command types. -/
theorem model_validation_rules (c1 : TranscribeAudioCommand)
    (c2 : ProcessAudioFileCommand) (m : String) :
    (c1.model = none → ∀ m2, invalidModelMsg m2 ∉ c1.validate) ∧
    (c1.model = some m → m ∉ validModels → invalidModelMsg m ∈ c1.validate) ∧
    (c2.model = none → ∀ m2, invalidModelMsg m2 ∉ c2.validate) ∧
    (c2.model = some m → m ∉ validModels → invalidModelMsg m ∈ c2.validate) := by
  refine ⟨?_, ?_, ?_, ?_⟩
  · intro hm m2
    unfold TranscribeAudioCommand.validate
    rw [hm]
    by_cases hp : c1.audio_file_path = "" <;> simp [hp, invalidModelMsg_ne_path m2]
  · intro hm hv
    unfold TranscribeAudioCommand.validate
    rw [hm]
    by_cases hp : c1.audio_file_path = "" <;> simp [hp, hv]
  · intro hm m2
    unfold ProcessAudioFileCommand.validate
    rw [hm]
    by_cases hp : c2.audio_file_path = "" <;> simp [hp, invalidModelMsg_ne_path m2]
  · intro hm hv
    unfold ProcessAudioFileCommand.validate
    rw [hm]
    by_cases hp : c2.audio_file_path = "" <;> simp [hp, hv]

/-- Claim C7 (witness): a concrete invalid model name produces the exact
violation string on both command types. -/
theorem model_validation_rules_witness :
    invalidModelMsg "bogus" ∈
      (TranscribeAudioCommand.mk "audio.mp3" (some "bogus")).validate ∧
    invalidModelMsg "bogus" ∈
      (ProcessAudioFileCommand.mk "audio.mp3" (some "bogus") false).validate := by
  have h := model_validation_rules (TranscribeAudioCommand.mk "audio.mp3" (some "bogus"))
    (ProcessAudioFileCommand.mk "audio.mp3" (some "bogus") false) "bogus"
  exact ⟨h.2.1 rfl (by decide), h.2.2.2 rfl (by decide)⟩

/-- Claim C1: when the command is valid and the transcription provider fails,
`process_audio_file` returns a failure whose message prefixes the provider's
message with "Transcription failed: " and whose errors are the provider's
errors; the result does not depend on the summarization provider (it is never
invoked). -/
theorem process_transcription_failure (tp : ITranscriptionProvider)
    (sp sp' : ISummarizationProvider) (cmd : ProcessAudioFileCommand)
    (hval : cmd.validate = [])
    (hfail : (tp.transcribe cmd.audio_file_path cmd.model).success = false) :
    (AudioProcessingService.process_audio_file tp sp cmd).success = false ∧
    (AudioProcessingService.process_audio_file tp sp cmd).message =
      "Transcription failed: " ++
        (tp.transcribe cmd.audio_file_path cmd.model).message ∧
    (AudioProcessingService.process_audio_file tp sp cmd).errors =
      (tp.transcribe cmd.audio_file_path cmd.model).errors ∧
    AudioProcessingService.process_audio_file tp sp cmd =
      AudioProcessingService.process_audio_file tp sp' cmd := by
  have hres : ∀ sq : ISummarizationProvider,
      AudioProcessingService.process_audio_file tp sq cmd =
        AppResult.fail
          ("Transcription failed: " ++
            (tp.transcribe cmd.audio_file_path cmd.model).message)
          (some (tp.transcribe cmd.audio_file_path cmd.model).errors) := by
    intro sq
    unfold AudioProcessingService.process_audio_file
    simp [hval, hfail]
  refine ⟨?_, ?_, ?_, ?_⟩
  · rw [hres sp]; rfl
  · rw [hres sp]; rfl
  · rw [hres sp]; rfl
  · rw [hres sp, hres sp']

/-- Claim C1 (witness): concrete failing transcriber over a valid command. -/
theorem process_transcription_failure_witness :
    (AudioProcessingService.process_audio_file failTranscriber okSummarizer
      sampleCommand).success = false ∧
    (AudioProcessingService.process_audio_file failTranscriber okSummarizer
      sampleCommand).message =
      "Transcription failed: " ++
        (failTranscriber.transcribe sampleCommand.audio_file_path
          sampleCommand.model).message ∧
    (AudioProcessingService.process_audio_file failTranscriber okSummarizer
      sampleCommand).errors =
      (failTranscriber.transcribe sampleCommand.audio_file_path
        sampleCommand.model).errors ∧
    AudioProcessingService.process_audio_file failTranscriber okSummarizer
      sampleCommand =
    AudioProcessingService.process_audio_file failTranscriber failSummarizer
      sampleCommand :=
  process_transcription_failure failTranscriber okSummarizer failSummarizer
    sampleCommand (by decide) (by decide)

/-- Claim C3: a command with an empty audio file path makes
`process_audio_file` return the validation-error envelope, with the required
violation among its errors, and the result does not depend on the
transcription provider (it is never invoked). -/
theorem process_empty_path (tp tp' : ITranscriptionProvider)
    (sp : ISummarizationProvider) (cmd : ProcessAudioFileCommand)
    (hpath : cmd.audio_file_path = "") :
    (AudioProcessingService.process_audio_file tp sp cmd).success = false ∧
    (AudioProcessingService.process_audio_file tp sp cmd).message =
      "Validation failed" ∧
    "Audio file path is required" ∈
      (AudioProcessingService.process_audio_file tp sp cmd).errors ∧
    AudioProcessingService.process_audio_file tp sp cmd =
      AudioProcessingService.process_audio_file tp' sp cmd := by
  have hcons : ∃ rest, cmd.validate = "Audio file path is required" :: rest := by
    refine ⟨(match cmd.model with
      | none => []
      | some m => if m ∈ validModels then [] else [invalidModelMsg m]), ?_⟩
    unfold ProcessAudioFileCommand.validate
    rw [hpath]
    simp
  obtain ⟨rest, hr⟩ := hcons
  have hres : ∀ tq : ITranscriptionProvider,
      AudioProcessingService.process_audio_file tq sp cmd =
        AppResult.validation_error cmd.validate := by
    intro tq
    unfold AudioProcessingService.process_audio_file
    simp [hr]
  refine ⟨?_, ?_, ?_, ?_⟩
  · rw [hres tp]; rfl
  · rw [hres tp]; rfl
  · rw [hres tp]
    show "Audio file path is required" ∈ cmd.validate
    rw [hr]
    exact List.mem_cons_self _ _
  · rw [hres tp, hres tp']

/-- Claim C3 (witness): concrete command with empty path. -/
theorem process_empty_path_witness :
    (AudioProcessingService.process_audio_file okTranscriber okSummarizer
      emptyPathCommand).success = false ∧
    (AudioProcessingService.process_audio_file okTranscriber okSummarizer
      emptyPathCommand).message = "Validation failed" ∧
    "Audio file path is required" ∈
      (AudioProcessingService.process_audio_file okTranscriber okSummarizer
        emptyPathCommand).errors ∧
    AudioProcessingService.process_audio_file okTranscriber okSummarizer
      emptyPathCommand =
    AudioProcessingService.process_audio_file failTranscriber okSummarizer
      emptyPathCommand :=
  process_empty_path okTranscriber failTranscriber okSummarizer
    emptyPathCommand rfl

/-- Claim C4: a valid command with `skip_summary = true` and a successful
transcription yields the success envelope pairing the transcription with the
sentinel summary, and the result does not depend on the summarization
provider (it is never invoked). -/
theorem process_skip_summary (tp : ITranscriptionProvider)
    (sp sp' : ISummarizationProvider) (cmd : ProcessAudioFileCommand)
    (t : Transcription)
    (hval : cmd.validate = [])
    (hskip : cmd.skip_summary = true)
    (hs : (tp.transcribe cmd.audio_file_path cmd.model).success = true)
    (hv : (tp.transcribe cmd.audio_file_path cmd.model).value = some t) :
    AudioProcessingService.process_audio_file tp sp cmd =
      AppResult.ok (t, Summary.mk "Summary skipped by user" [])
        "Transcription completed (summary skipped)" ∧
    AudioProcessingService.process_audio_file tp sp cmd =
      AudioProcessingService.process_audio_file tp sp' cmd := by
  have hres : ∀ sq : ISummarizationProvider,
      AudioProcessingService.process_audio_file tp sq cmd =
        AppResult.ok (t, Summary.mk "Summary skipped by user" [])
          "Transcription completed (summary skipped)" := by
    intro sq
    unfold AudioProcessingService.process_audio_file
    simp [hval, hs, hv, hskip]
  exact ⟨hres sp, by rw [hres sp, hres sp']⟩

/-- Claim C4 (witness): concrete skip-summary run. -/
theorem process_skip_summary_witness :
    AudioProcessingService.process_audio_file okTranscriber okSummarizer
      skipCommand =
      AppResult.ok (sampleTranscription, Summary.mk "Summary skipped by user" [])
        "Transcription completed (summary skipped)" ∧
    AudioProcessingService.process_audio_file okTranscriber okSummarizer
      skipCommand =
    AudioProcessingService.process_audio_file okTranscriber failSummarizer
      skipCommand :=
  process_skip_summary okTranscriber okSummarizer failSummarizer skipCommand
    sampleTranscription (by decide) rfl rfl rfl

/-- Claim C5 (counterexample): all of the claim's hypotheses hold — valid
command, `skip_summary = false`, transcription succeeds with
`wsTranscription`, and the summarizer succeeds on its text — yet the pipeline
returns a failure, because the text is all whitespace and the internal
`GenerateSummaryCommand` validation rejects it before the summarizer is
consulted. -/
theorem process_full_success_unamended_fails :
    sampleCommand.validate = [] ∧
    sampleCommand.skip_summary = false ∧
    (wsTranscriber.transcribe sampleCommand.audio_file_path
      sampleCommand.model).success = true ∧
    (wsTranscriber.transcribe sampleCommand.audio_file_path
      sampleCommand.model).value = some wsTranscription ∧
    (okSummarizer.summarize wsTranscription.text).success = true ∧
    (okSummarizer.summarize wsTranscription.text).value = some sampleSummary ∧
    AudioProcessingService.process_audio_file wsTranscriber okSummarizer
      sampleCommand ≠
      AppResult.ok (wsTranscription, sampleSummary)
        "Audio processing completed successfully" ∧
    (AudioProcessingService.process_audio_file wsTranscriber okSummarizer
      sampleCommand).success = false := by
  decide

/-- Claim C5 (amended): additionally assuming the transcription's text is
non-blank after trimming, a valid non-skip command with successful
transcription and successful summarization on that text yields the success
envelope with both entities unmodified. -/
theorem process_full_success (tp : ITranscriptionProvider)
    (sp : ISummarizationProvider) (cmd : ProcessAudioFileCommand)
    (t : Transcription) (s : Summary)
    (hval : cmd.validate = [])
    (hskip : cmd.skip_summary = false)
    (hts : (tp.transcribe cmd.audio_file_path cmd.model).success = true)
    (htv : (tp.transcribe cmd.audio_file_path cmd.model).value = some t)
    (htrim : pyStrip t.text ≠ "")
    (hss : (sp.summarize t.text).success = true)
    (hsv : (sp.summarize t.text).value = some s) :
    AudioProcessingService.process_audio_file tp sp cmd =
      AppResult.ok (t, s) "Audio processing completed successfully" := by
  have hne : t.text ≠ "" := by
    intro h
    exact htrim (by rw [h]; rfl)
  have hgen : AudioProcessingService.generate_summary sp ⟨t.text⟩ =
      sp.summarize t.text := by
    unfold AudioProcessingService.generate_summary GenerateSummaryCommand.validate
    simp [hne, htrim]
  unfold AudioProcessingService.process_audio_file
  simp [hval, hts, htv, hskip, hgen, hss, hsv]

/-- Claim C5 (witness): concrete full pipeline success. -/
theorem process_full_success_witness :
    AudioProcessingService.process_audio_file okTranscriber okSummarizer
      sampleCommand =
      AppResult.ok (sampleTranscription, sampleSummary)
        "Audio processing completed successfully" :=
  process_full_success okTranscriber okSummarizer sampleCommand
    sampleTranscription sampleSummary (by decide) rfl rfl rfl (by decide)
    rfl rfl

/-- Claim C9: on a command that passes validation, both services return the
provider's envelope unmodified. -/
theorem services_pass_through (tp : ITranscriptionProvider)
    (sp : ISummarizationProvider) (c1 : TranscribeAudioCommand)
    (c2 : GenerateSummaryCommand)
    (h1 : c1.validate = []) (h2 : c2.validate = []) :
    TranscriptionService.transcribe_audio tp c1 =
      tp.transcribe c1.audio_file_path c1.model ∧
    AudioProcessingService.generate_summary sp c2 = sp.summarize c2.text := by
  constructor
  · unfold TranscriptionService.transcribe_audio
    simp [h1]
  · unfold AudioProcessingService.generate_summary
    simp [h2]

/-- Claim C9 (witness): concrete pass-through on valid commands. -/
theorem services_pass_through_witness :
    TranscriptionService.transcribe_audio okTranscriber
      (TranscribeAudioCommand.mk "audio.mp3" (some "base")) =
      okTranscriber.transcribe
        (TranscribeAudioCommand.mk "audio.mp3" (some "base")).audio_file_path
        (TranscribeAudioCommand.mk "audio.mp3" (some "base")).model ∧
    AudioProcessingService.generate_summary okSummarizer
      (GenerateSummaryCommand.mk "hello") =
      okSummarizer.summarize (GenerateSummaryCommand.mk "hello").text :=
  services_pass_through okTranscriber okSummarizer
    (TranscribeAudioCommand.mk "audio.mp3" (some "base"))
    (GenerateSummaryCommand.mk "hello") (by decide) (by decide)

/-- Claim C10: a valid non-skip command whose transcription succeeds with
non-empty but all-whitespace text makes the pipeline fail with
"Summarization failed: Validation failed", carrying the summary-validation
violation, and the result does not depend on the summarization provider (it
is never invoked). -/
theorem process_whitespace_text (tp : ITranscriptionProvider)
    (sp sp' : ISummarizationProvider) (cmd : ProcessAudioFileCommand)
    (t : Transcription)
    (hval : cmd.validate = [])
    (hskip : cmd.skip_summary = false)
    (hts : (tp.transcribe cmd.audio_file_path cmd.model).success = true)
    (htv : (tp.transcribe cmd.audio_file_path cmd.model).value = some t)
    (_hne : t.text ≠ "")
    (hws : pyStrip t.text = "") :
    (AudioProcessingService.process_audio_file tp sp cmd).success = false ∧
    (AudioProcessingService.process_audio_file tp sp cmd).message =
      "Summarization failed: Validation failed" ∧
    "Text is required for summarization" ∈
      (AudioProcessingService.process_audio_file tp sp cmd).errors ∧
    AudioProcessingService.process_audio_file tp sp cmd =
      AudioProcessingService.process_audio_file tp sp' cmd := by
  have hgen : ∀ sq : ISummarizationProvider,
      AudioProcessingService.generate_summary sq ⟨t.text⟩ =
        AppResult.validation_error ["Text is required for summarization"] := by
    intro sq
    unfold AudioProcessingService.generate_summary GenerateSummaryCommand.validate
    simp [hws]
  have hstr : ("Summarization failed: " ++ "Validation failed" : String) =
      "Summarization failed: Validation failed" := rfl
  have hres : ∀ sq : ISummarizationProvider,
      AudioProcessingService.process_audio_file tp sq cmd =
        AppResult.fail "Summarization failed: Validation failed"
          (some ["Text is required for summarization"]) := by
    intro sq
    unfold AudioProcessingService.process_audio_file
    simp [hval, hts, htv, hskip, hgen, AppResult.validation_error, hstr]
  refine ⟨?_, ?_, ?_, ?_⟩
  · rw [hres sp]; rfl
  · rw [hres sp]; rfl
  · rw [hres sp]; exact List.mem_cons_self _ _
  · rw [hres sp, hres sp']

/-- Claim C10 (witness): concrete whitespace-text transcription. -/
theorem process_whitespace_text_witness :
    (AudioProcessingService.process_audio_file wsTranscriber okSummarizer
      sampleCommand).success = false ∧
    (AudioProcessingService.process_audio_file wsTranscriber okSummarizer
      sampleCommand).message = "Summarization failed: Validation failed" ∧
    "Text is required for summarization" ∈
      (AudioProcessingService.process_audio_file wsTranscriber okSummarizer
        sampleCommand).errors ∧
    AudioProcessingService.process_audio_file wsTranscriber okSummarizer
      sampleCommand =
    AudioProcessingService.process_audio_file wsTranscriber failSummarizer
      sampleCommand :=
  process_whitespace_text wsTranscriber okSummarizer failSummarizer
    sampleCommand wsTranscription (by decide) rfl rfl rfl (by decide) (by decide)

end Scribe
